import Mathlib

/-!
Shallow embedding of `src/simple_master.py` (HART-to-MQTT bridge).

Bytes are modelled as `Nat` values below 256; byte strings as `List Nat`.
Python operations that can raise (`int.to_bytes` with an out-of-range
value, arithmetic on `None`) are modelled with `Option` / `Except`.
Measured variable values (Python floats) are modelled as exact
rationals `ℚ`; the only arithmetic applied to them by the program is
multiplication by the integer 10^6.
-/

namespace SimpleMaster

/-- Python `n.to_bytes(len, "big")` payload: big-endian digits of `n`
in base 256, `len` digits. -/
def natToBytesBE : Nat → Nat → List Nat
  | 0, _ => []
  | k + 1, n => natToBytesBE k (n / 256) ++ [n % 256]

/-- Python `int.to_bytes(len, "big")`: raises `OverflowError` (here `none`)
when the integer does not fit in `len` bytes. -/
def to_bytes (n len : Nat) : Option (List Nat) :=
  if n < 256 ^ len then some (natToBytesBE len n) else none

/-- Model of `hart_protocol.tools.calculate_checksum`: XOR-fold of the given bytes
(the library returns it as a single byte). -/
def calculate_checksum (data : List Nat) : Nat :=
  data.foldl Nat.xor 0

/-- Model of `hart_protocol.tools.calculate_long_address`: the 5-byte long address
derived from manufacturer id (masked to 6 bits), device type and the
3-byte device id. External library function, modelled concretely; no
claim depends on the exact byte layout, only on the long address being
a function of the three identity fields. -/
def calculate_long_address (mid mdt : Nat) (did : List Nat) : List Nat :=
  (mid % 64) :: (mdt % 256) :: did

/-- Embedding of `SimpleMaster.pack_short_frame(address, command_id, preamble_len, data)`
from `src/simple_master.py` lines 55-70.  `address` is taken already
normalized to an integer (the Python code converts a `bytes` address via
`int.from_bytes`).  Returns `none` where Python raises `OverflowError`:
`command_id.to_bytes(1)`, `(128 | address).to_bytes(1)` or
`len(data).to_bytes(1)` with an out-of-range argument. -/
def pack_short_frame (address command_id preamble_len : Nat)
    (data : Option (List Nat)) : Option (List Nat) :=
  match to_bytes command_id 1 with
  | none => none
  | some cid =>
    match to_bytes (128 ||| address) 1 with
    | none => none
    | some addr =>
      match (match data with
             | none => some [0]
             | some d => (to_bytes d.length 1).map (fun bc => bc ++ d)) with
      | none => none
      | some tail =>
        let command := List.replicate preamble_len 255 ++ [2] ++ addr ++ cid ++ tail
        some (command ++ [calculate_checksum (command.drop preamble_len)])

/-- A decoded command-0 response as produced by the external unpacker:
the identity fields read by `run_command_0`. -/
structure Msg0 where
  manufacturer_id : Nat
  manufacturer_device_type : Nat
  device_id : Nat
  deriving DecidableEq, Repr

/-- A decoded command-3 response: the two dynamic-variable fields read by
`run_command_3`.  Float values are modelled as exact rationals. -/
structure Msg3 where
  primary_variable : ℚ
  secondary_variable : ℚ
  deriving DecidableEq, Repr

/-- The mutable identity state of a `SimpleMaster` instance
(`__init__`, lines 50-53): all fields start as `None`.  The serial
handle and unpacker are modelled by passing the drained message lists
to each command explicitly. -/
structure SessionState where
  manufacturer_id : Option Nat
  manufacturer_device_type : Option Nat
  device_id : Option (List Nat)
  long_address : Option (List Nat)
  deriving DecidableEq, Repr

/-- The state right after `SimpleMaster.__init__`: every identity field
is `None`. -/
def initSession : SessionState := ⟨none, none, none, none⟩

/-- The drain loop of `run_command_0` (lines 78-82): each decoded message
overwrites all three identity fields; `msg.device_id.to_bytes(3, big)`
raises `OverflowError` (modelled as `.error`) when the id needs more
than 3 bytes. -/
def drain0 (s : SessionState) : List Msg0 → Except String SessionState
  | [] => .ok s
  | m :: rest =>
    match to_bytes m.device_id 3 with
    | none => .error "OverflowError in device_id.to_bytes"
    | some db =>
      drain0 { s with manufacturer_id := some m.manufacturer_id,
                      manufacturer_device_type := some m.manufacturer_device_type,
                      device_id := some db } rest

/-- Embedding of `SimpleMaster.run_command_0` (lines 72-92): drain the decoded
messages, then return `False` if any identity field is still `None`;
otherwise compute and store the long address and return `True`. -/
def run_command_0 (s : SessionState) (msgs : List Msg0) :
    Except String (Bool × SessionState) :=
  match drain0 s msgs with
  | .error e => .error e
  | .ok s1 =>
    if s1.manufacturer_id = none ∨ s1.manufacturer_device_type = none ∨
        s1.device_id = none then
      .ok (false, s1)
    else
      .ok (true, { s1 with long_address := some (calculate_long_address
        (s1.manufacturer_id.getD 0) (s1.manufacturer_device_type.getD 0)
        (s1.device_id.getD [])) })

/-- Embedding of `SimpleMaster.run_command_1` (lines 94-100): sends a long-frame
command addressed via the long address and logs each drained response.
No session field is assigned.  When `long_address` is still `None` the
library call `pack_command(None, 1)` raises a `TypeError` (modelled as
`.error`); the drained messages are only logged, so their type is
irrelevant (`α`). -/
def run_command_1 {α : Type} (s : SessionState) (_msgs : List α) :
    SessionState × Except String Unit :=
  match s.long_address with
  | none => (s, .error "TypeError: NoneType address in pack_command")
  | some _ => (s, .ok ())

/-- The reading record built by `run_command_3` (lines 106-109): a dict
with exactly the keys primary, primary_units, secondary,
secondary_units, all initialized to `None`. -/
structure Reading where
  primary : Option ℚ
  primary_units : Option ℚ
  secondary : Option ℚ
  secondary_units : Option ℚ
  deriving DecidableEq, Repr

/-- The drain loop of `run_command_3` (lines 110-115): each decoded
message overwrites primary and secondary; the unit assignments are
commented out in the source, so the unit fields are never written. -/
def drain3 (d : Reading) : List Msg3 → Reading
  | [] => d
  | m :: rest =>
    drain3 { d with primary := some m.primary_variable,
                    secondary := some m.secondary_variable } rest

/-- Embedding of `SimpleMaster.run_command_3` (lines 102-118): sends the command
(raising a `TypeError` if `long_address` is `None`), drains the decoded
messages keeping the last values, then executes
`data[secondary] = data[secondary] * 1_000_000` — which raises a
`TypeError` when secondary is still `None` (zero messages drained) —
and returns the record.  No session field is assigned. -/
def run_command_3 (s : SessionState) (msgs : List Msg3) :
    SessionState × Except String Reading :=
  match s.long_address with
  | none => (s, .error "TypeError: NoneType address in pack_command")
  | some _ =>
    let d := drain3 ⟨none, none, none, none⟩ msgs
    match d.secondary with
    | none => (s, .error "TypeError: NoneType times int")
    | some sv => (s, .ok { d with secondary := some (sv * 1000000) })

/-- Observable actions of the orchestrator `run` (lines 128-142), in
order of occurrence. -/
inductive Event where
  | cmd1Run : Event
  | clientCreated : Event
  | cmd3Run : Event
  | published : String → Option ℚ → Event
  deriving DecidableEq, Repr

/-- The body of the infinite `while True` loop (lines 139-142), run over
a finite prefix of drained batches: each iteration runs command 3 and
publishes primary to topic press and secondary to topic temp; an
exception inside `run_command_3` terminates the loop (propagates). -/
def loopEvents (s : SessionState) : List (List Msg3) → List Event
  | [] => []
  | batch :: rest =>
    match (run_command_3 s batch).2 with
    | .error _ => [Event.cmd3Run]
    | .ok d =>
      Event.cmd3Run :: Event.published "press" d.primary ::
        Event.published "temp" d.secondary :: loopEvents s rest

/-- The orchestrator `run` (lines 128-142): construct the session, run
command 0, exit with no further action on failure (or on a propagated
exception); on success run command 1, construct the MQTT `Client`, and
run the polling loop.  Returns the list of observable events. -/
def run_model (cmd0msgs : List Msg0) (batches : List (List Msg3)) :
    List Event :=
  match run_command_0 initSession cmd0msgs with
  | .error _ => []
  | .ok (false, _) => []
  | .ok (true, s) =>
    match run_command_1 s ([] : List Unit) with
    | (_, .error _) => [Event.cmd1Run]
    | (s1, .ok _) => Event.cmd1Run :: Event.clientCreated :: loopEvents s1 batches

/-- A session identified by the command-0 response (1, 2, 3): the state
produced by `run_command_0 initSession` on that single response. -/
def sIdent : SessionState := ⟨some 1, some 2, some [0, 0, 3], some [1, 2, 0, 0, 3]⟩

/-- A session carrying only a long address, with the identity fields
still unset. -/
def sAnon : SessionState := ⟨none, none, none, some [1, 2, 0, 0, 3]⟩

/-- The drain loop of `run_command_3` never touches the unit fields. -/
lemma drain3_units (d : Reading) (msgs : List Msg3) :
    (drain3 d msgs).primary_units = d.primary_units ∧
    (drain3 d msgs).secondary_units = d.secondary_units := by
  induction msgs generalizing d with
  | nil => exact ⟨rfl, rfl⟩
  | cons m rest ih =>
    simp only [drain3]
    exact ih _

/-- Draining a nonempty batch keeps exactly the last message's primary
and secondary values (last-write-wins). -/
lemma drain3_getLast (d : Reading) (msgs : List Msg3) (m : Msg3)
    (h : msgs.getLast? = some m) :
    drain3 d msgs = { d with primary := some m.primary_variable,
                             secondary := some m.secondary_variable } := by
  induction msgs generalizing d with
  | nil => simp at h
  | cons a t ih =>
    cases t with
    | nil =>
      simp only [List.getLast?_singleton, Option.some.injEq] at h
      subst h
      rfl
    | cons c t2 =>
      rw [List.getLast?_cons_cons] at h
      rw [drain3, ih _ h]

/-- C4 counterexample: on the identified session, `run_command_3` with
zero decoded messages does not return a reading record: the statement
`data[secondary] = data[secondary] * 1_000_000` raises a `TypeError`
because `data[secondary]` is still `None`. -/
theorem run_command_3_zero_messages_counterexample :
    (run_command_3 sIdent []).2 = .error "TypeError: NoneType times int" := rfl

/-- C4 (amended): whenever the session has a long address and the
unpacker yields zero decoded messages, `run_command_3` raises a
`TypeError` while scaling the still-`None` secondary value, so the
caller receives no reading record at all; the session state itself is
unchanged. -/
theorem run_command_3_zero_messages_raises
    (s : SessionState) (la : List Nat) (h : s.long_address = some la) :
    (run_command_3 s []).2 = .error "TypeError: NoneType times int" ∧
    (run_command_3 s []).1 = s := by
  simp [run_command_3, h, drain3]

/-- Witness for the amended C4 on a session holding only a long
address. -/
theorem run_command_3_zero_messages_raises_witness :
    (run_command_3 sAnon []).2 = .error "TypeError: NoneType times int" ∧
    (run_command_3 sAnon []).1 = sAnon :=
  run_command_3_zero_messages_raises sAnon [1, 2, 0, 0, 3] rfl

/-- C6: whenever the session is identified and the last decoded
command-3 message carries primary variable 1.5 and secondary variable
0.002, `run_command_3` returns the reading with primary 1.5 and
secondary 2000 (the secondary is multiplied by 10^6), and the
orchestrator loop iteration publishes the primary value to topic press
and the scaled secondary value to topic temp. -/
theorem run_command_3_published_values
    (s : SessionState) (la : List Nat) (msgs : List Msg3) (m : Msg3)
    (hla : s.long_address = some la) (hlast : msgs.getLast? = some m)
    (hp : m.primary_variable = 1.5) (hs : m.secondary_variable = 0.002) :
    (run_command_3 s msgs).2 = .ok ⟨some 1.5, none, some 2000, none⟩ ∧
    loopEvents s [msgs] =
      [Event.cmd3Run, Event.published "press" (some 1.5),
       Event.published "temp" (some 2000)] := by
  have hidx : (run_command_3 s msgs).2 = .ok ⟨some 1.5, none, some 2000, none⟩ := by
    have hdr := drain3_getLast ⟨none, none, none, none⟩ msgs m hlast
    simp only [run_command_3, hla, hdr, hp, hs]
    norm_num
  refine ⟨hidx, ?_⟩
  simp only [loopEvents, hidx]

/-- Witness for C6: a single decoded message with primary 1.5 and
secondary 0.002 on the identified session. -/
theorem run_command_3_published_values_witness :
    (run_command_3 sIdent [⟨1.5, 0.002⟩]).2 =
      .ok ⟨some 1.5, none, some 2000, none⟩ ∧
    loopEvents sIdent [[⟨1.5, 0.002⟩]] =
      [Event.cmd3Run, Event.published "press" (some 1.5),
       Event.published "temp" (some 2000)] :=
  run_command_3_published_values sIdent [1, 2, 0, 0, 3] [⟨1.5, 0.002⟩]
    ⟨1.5, 0.002⟩ rfl rfl rfl rfl

/-- C7: when command 0 returns False from the fresh session, the
orchestrator produces no observable event at all: no MQTT client is
constructed, nothing is ever published, and neither `run_command_1` nor
`run_command_3` is invoked. -/
theorem run_exits_on_cmd0_failure
    (msgs : List Msg0) (batches : List (List Msg3)) (s1 : SessionState)
    (h : run_command_0 initSession msgs = .ok (false, s1)) :
    run_model msgs batches = [] ∧
    Event.clientCreated ∉ run_model msgs batches ∧
    Event.cmd1Run ∉ run_model msgs batches ∧
    Event.cmd3Run ∉ run_model msgs batches ∧
    ∀ topic v, Event.published topic v ∉ run_model msgs batches := by
  have he : run_model msgs batches = [] := by
    simp only [run_model, h]
  refine ⟨he, ?_, ?_, ?_, ?_⟩ <;> simp [he]

/-- Witness for C7: zero decoded command-0 responses. -/
theorem run_exits_on_cmd0_failure_witness :
    run_model [] [[⟨1, 1⟩]] = [] :=
  (run_exits_on_cmd0_failure [] [[⟨1, 1⟩]] initSession rfl).1

/-- C8: `run_command_3` leaves the session state as it was, and its
result depends only on the long address and the drained message
sequence: two sessions with the same long address get the same reading
from the same messages, so repeated calls against a fixed response
sequence always return the same reading. -/
theorem run_command_3_state_independent
    (s t : SessionState) (msgs : List Msg3)
    (h : s.long_address = t.long_address) :
    (run_command_3 s msgs).1 = s ∧
    (run_command_3 s msgs).2 = (run_command_3 t msgs).2 := by
  constructor
  · rcases hla : s.long_address with _ | la
    · simp [run_command_3, hla]
    · simp only [run_command_3, hla]
      rcases hsec : (drain3 ⟨none, none, none, none⟩ msgs).secondary with _ | sv <;>
        simp [hsec]
  · rcases hla : s.long_address with _ | la <;> rw [hla] at h
    · simp [run_command_3, hla, ← h]
    · rcases hsec : (drain3 ⟨none, none, none, none⟩ msgs).secondary with _ | sv <;>
        simp [run_command_3, hla, ← h, hsec]

/-- Witness for C8: the fully identified session and a session holding
only the same long address give the same reading. -/
theorem run_command_3_state_independent_witness :
    (run_command_3 sIdent [⟨1, 1⟩]).1 = sIdent ∧
    (run_command_3 sIdent [⟨1, 1⟩]).2 = (run_command_3 sAnon [⟨1, 1⟩]).2 :=
  run_command_3_state_independent sIdent sAnon [⟨1, 1⟩] rfl

/-- C9: `run_command_1` leaves every session field exactly as it was:
manufacturer id, device type, device id and long address are unchanged
by any call (responses are logged only, not retained). -/
theorem run_command_1_state_unchanged {α : Type} (s : SessionState) (msgs : List α) :
    (run_command_1 s msgs).1 = s ∧
    (run_command_1 s msgs).1.manufacturer_id = s.manufacturer_id ∧
    (run_command_1 s msgs).1.manufacturer_device_type = s.manufacturer_device_type ∧
    (run_command_1 s msgs).1.device_id = s.device_id ∧
    (run_command_1 s msgs).1.long_address = s.long_address := by
  rcases hla : s.long_address with _ | la <;> simp [run_command_1, hla]

/-- C10: every reading record returned by `run_command_3` is a `Reading`
(exactly the four keys primary, primary_units, secondary,
secondary_units of the dict built at lines 106-109), and its
primary_units and secondary_units entries are `none` whatever the
decoded messages were: the unit fields are initialized but never
populated. -/
theorem run_command_3_units_none
    (s : SessionState) (msgs : List Msg3) (r : Reading)
    (h : (run_command_3 s msgs).2 = .ok r) :
    r.primary_units = none ∧ r.secondary_units = none := by
  rcases hla : s.long_address with _ | la
  · simp [run_command_3, hla] at h
  · simp only [run_command_3, hla] at h
    rcases hsec : (drain3 ⟨none, none, none, none⟩ msgs).secondary with _ | sv <;>
      rw [hsec] at h
    · simp at h
    · simp only [Except.ok.injEq] at h
      subst h
      have hu := drain3_units ⟨none, none, none, none⟩ msgs
      exact ⟨hu.1, hu.2⟩

/-- Witness for C10 at a one-message drain. -/
theorem run_command_3_units_none_witness :
    (⟨some 1, none, some 1000000, none⟩ : Reading).primary_units = none ∧
    (⟨some 1, none, some 1000000, none⟩ : Reading).secondary_units = none :=
  run_command_3_units_none sIdent [⟨1, 1⟩] ⟨some 1, none, some 1000000, none⟩
    (by norm_num [run_command_3, drain3, sIdent])

end SimpleMaster


namespace SimpleMaster

lemma to_bytes_one {n : Nat} (h : n < 256) : to_bytes n 1 = some [n] := by
  simp [to_bytes, natToBytesBE, Nat.mod_eq_of_lt h, h]

lemma lor_128_lt {address : Nat} (h : address ≤ 63) : 128 ||| address < 256 := by
  have h1 : (128 : Nat) < 2 ^ 8 := by norm_num
  have h2 : address < 2 ^ 8 := by omega
  exact Nat.or_lt_two_pow h1 h2

/-- Explicit form of `pack_short_frame` with no data payload. -/
lemma pack_short_frame_none_eq {address command_id : Nat} (preamble_len : Nat)
    (ha : address ≤ 63) (hc : command_id < 256) :
    pack_short_frame address command_id preamble_len none =
      some ((List.replicate preamble_len 255 ++
              [2, 128 ||| address, command_id, 0]) ++
            [calculate_checksum [2, 128 ||| address, command_id, 0]]) := by
  have hb := to_bytes_one (lor_128_lt ha)
  have hcb := to_bytes_one hc
  simp only [pack_short_frame, hb, hcb]
  have hdrop : (List.replicate preamble_len 255 ++
      ([2] ++ [128 ||| address] ++ [command_id] ++ [0])).drop preamble_len =
      [2] ++ [128 ||| address] ++ [command_id] ++ [0] := by
    simp
  simp only [List.append_assoc] at hdrop ⊢
  rw [hdrop]
  simp

/-- Explicit form of `pack_short_frame` with a data payload of at most
255 bytes. -/
lemma pack_short_frame_some_eq {address command_id : Nat} (preamble_len : Nat)
    {d : List Nat} (ha : address ≤ 63) (hc : command_id < 256)
    (hd : d.length ≤ 255) :
    pack_short_frame address command_id preamble_len (some d) =
      some ((List.replicate preamble_len 255 ++
              ([2, 128 ||| address, command_id, d.length] ++ d)) ++
            [calculate_checksum ([2, 128 ||| address, command_id, d.length] ++ d)]) := by
  have hb := to_bytes_one (lor_128_lt ha)
  have hcb := to_bytes_one hc
  have hlb : to_bytes d.length 1 = some [d.length] := to_bytes_one (by omega)
  simp only [pack_short_frame, hb, hcb, hlb, Option.map_some']
  have hdrop : (List.replicate preamble_len 255 ++
      ([2] ++ [128 ||| address] ++ [command_id] ++ ([d.length] ++ d))).drop preamble_len =
      [2] ++ [128 ||| address] ++ [command_id] ++ ([d.length] ++ d) := by
    simp
  simp only [List.append_assoc] at hdrop ⊢
  rw [hdrop]
  simp

/-- The last byte of a packed frame is the XOR-fold of the zero-preamble
portion of the frame without its checksum byte. -/
lemma frame_checksum_eq (p : Nat) (B : List Nat) :
    ((List.replicate p 255 ++ B) ++ [calculate_checksum B]).getLast? =
      some (((((List.replicate p 255 ++ B) ++
        [calculate_checksum B]).dropLast).drop p).foldl Nat.xor 0) := by
  rw [List.getLast?_concat, List.dropLast_concat]
  have h : (List.replicate p 255 ++ B).drop p = B := by simp
  rw [h]
  rfl

/-- The byte right after a length-p preamble. -/
lemma replicate_append_getElem (p x b : Nat) (l : List Nat) :
    (List.replicate p x ++ (b :: l))[p]? = some b := by
  rw [List.getElem?_append_right (by simp)]
  simp

/-- C1: for every address in [0,63], every single-byte command id, every
preamble_len, and every data payload of length at most 255 (or no data),
`pack_short_frame` returns a frame whose total length equals
preamble_len + 4 + (1 if no data else 1 + len(data)) and whose final
checksum byte equals the XOR of all bytes from the start delimiter
(position preamble_len) through the end of the data payload (all bytes
of the frame except the preamble and the checksum byte itself). -/
theorem pack_short_frame_length_and_checksum
    (address command_id preamble_len : Nat) (data : Option (List Nat))
    (ha : address ≤ 63) (hc : command_id < 256)
    (hd : ∀ d, data = some d → d.length ≤ 255) :
    ∃ frame, pack_short_frame address command_id preamble_len data = some frame ∧
      frame.length = preamble_len + 4 +
        (match data with | none => 1 | some d => 1 + d.length) ∧
      frame.getLast? = some ((frame.dropLast.drop preamble_len).foldl Nat.xor 0) := by
  cases data with
  | none =>
    refine ⟨_, pack_short_frame_none_eq preamble_len ha hc, ?_, ?_⟩
    · simp
    · exact frame_checksum_eq preamble_len _
  | some d =>
    have hd255 : d.length ≤ 255 := hd d rfl
    refine ⟨_, pack_short_frame_some_eq preamble_len ha hc hd255, ?_, ?_⟩
    · simp
      omega
    · exact frame_checksum_eq preamble_len _

/-- Witness for C1 at address 1, command id 2, preamble length 3 and
payload [7, 8]. -/
theorem pack_short_frame_length_and_checksum_witness :
    ∃ frame, pack_short_frame 1 2 3 (some [7, 8]) = some frame ∧
      frame.length = 3 + 4 + (1 + 2) ∧
      frame.getLast? = some ((frame.dropLast.drop 3).foldl Nat.xor 0) :=
  pack_short_frame_length_and_checksum 1 2 3 (some [7, 8]) (by decide) (by decide)
    (by intro d hdd; cases hdd; decide)

/-- C2 counterexample: in the frame built for address 0, command id 0,
preamble length 20 and no data, the checksum byte is 130 (= 0x02 XOR
0x80), while the XOR over the bytes from the command id onward (the
bytes after the preamble, start delimiter and address byte) is 0: the
checksum is not computed from the command id onward. -/
theorem pack_short_frame_checksum_not_cmd_onward :
    pack_short_frame 0 0 20 none =
      some (List.replicate 20 255 ++ [2, 128, 0, 0, 130]) ∧
    ((List.replicate 20 255 ++ [2, 128, 0, 0, 130] : List Nat).dropLast.drop
        (20 + 2)).foldl Nat.xor 0 ≠ 130 := by
  constructor
  · decide
  · decide

/-- C2 (amended): the checksum byte of every frame produced by
`pack_short_frame` is the XOR over the bytes from the start delimiter
onward (start delimiter, address byte, command id, byte count and data),
not from the command id onward; the start delimiter 0x02 sits at
position preamble_len and the XOR runs from there through the end of the
data. -/
theorem pack_short_frame_checksum_from_start
    (address command_id preamble_len : Nat) (data : Option (List Nat))
    (ha : address ≤ 63) (hc : command_id < 256)
    (hd : ∀ d, data = some d → d.length ≤ 255) :
    ∃ frame, pack_short_frame address command_id preamble_len data = some frame ∧
      frame[preamble_len]? = some 2 ∧
      frame.getLast? = some ((frame.dropLast.drop preamble_len).foldl Nat.xor 0) := by
  cases data with
  | none =>
    refine ⟨_, pack_short_frame_none_eq preamble_len ha hc, ?_, ?_⟩
    · rw [List.append_assoc]
      exact replicate_append_getElem preamble_len 255 2 _
    · exact frame_checksum_eq preamble_len _
  | some d =>
    have hd255 : d.length ≤ 255 := hd d rfl
    refine ⟨_, pack_short_frame_some_eq preamble_len ha hc hd255, ?_, ?_⟩
    · rw [List.append_assoc]
      exact replicate_append_getElem preamble_len 255 2 _
    · exact frame_checksum_eq preamble_len _

/-- Witness for the amended C2 at address 5, command id 3, preamble
length 1 and no data. -/
theorem pack_short_frame_checksum_from_start_witness :
    ∃ frame, pack_short_frame 5 3 1 none = some frame ∧
      frame[1]? = some 2 ∧
      frame.getLast? = some ((frame.dropLast.drop 1).foldl Nat.xor 0) :=
  pack_short_frame_checksum_from_start 5 3 1 none (by decide) (by decide)
    (by intro d hdd; cases hdd)

set_option maxRecDepth 4096 in
/-- C5 counterexample: for a 256-byte payload, `pack_short_frame` does
not produce any frame: `len(data).to_bytes(1, big)` raises
`OverflowError` (modelled as `none`), so no frame with a wrong
byte-count field is ever returned. -/
theorem pack_short_frame_oversize_counterexample :
    pack_short_frame 0 0 20 (some (List.replicate 256 0)) = none := by
  rfl

/-- C5 (amended): for every data payload longer than 255 bytes,
`pack_short_frame` fails with `OverflowError` (from
`len(data).to_bytes(1, big)`) instead of silently producing a frame
with a wrong byte-count field. -/
theorem pack_short_frame_oversize_raises
    (address command_id preamble_len : Nat) (d : List Nat)
    (h : 255 < d.length) :
    pack_short_frame address command_id preamble_len (some d) = none := by
  have hlen : to_bytes d.length 1 = none := by
    have hnot : ¬ d.length < 256 ^ 1 := by
      rw [pow_one]
      omega
    simp only [to_bytes, if_neg hnot]
  rcases h1 : to_bytes command_id 1 with _ | cid
  · simp [pack_short_frame, h1]
  · rcases h2 : to_bytes (128 ||| address) 1 with _ | addr
    · simp [pack_short_frame, h1, h2]
    · simp [pack_short_frame, h1, h2, hlen]

/-- Witness for the amended C5 at a payload of 300 bytes. -/
theorem pack_short_frame_oversize_raises_witness :
    pack_short_frame 0 0 20 (some (List.replicate 300 7)) = none :=
  pack_short_frame_oversize_raises 0 0 20 (List.replicate 300 7)
    (by rw [List.length_replicate]; omega)

/-- Case analysis on the result of `run_command_0`: a False return comes
with a missing identity field, a True return with all three fields set
and the derived long address stored. -/
lemma run_command_0_ok_shape
    (s : SessionState) (msgs : List Msg0) (b : Bool) (s1 : SessionState)
    (h : run_command_0 s msgs = .ok (b, s1)) :
    (b = false ∧ (s1.manufacturer_id = none ∨ s1.manufacturer_device_type = none ∨
       s1.device_id = none)) ∨
    (b = true ∧ ∃ mid mdt did, s1.manufacturer_id = some mid ∧
       s1.manufacturer_device_type = some mdt ∧ s1.device_id = some did ∧
       s1.long_address = some (calculate_long_address mid mdt did)) := by
  rcases hdr : drain0 s msgs with e | s2
  · simp [run_command_0, hdr] at h
  · simp only [run_command_0, hdr] at h
    by_cases hc : s2.manufacturer_id = none ∨ s2.manufacturer_device_type = none ∨
        s2.device_id = none
    · rw [if_pos hc] at h
      simp only [Except.ok.injEq, Prod.mk.injEq] at h
      obtain ⟨hb, hs⟩ := h
      subst hb
      subst hs
      exact Or.inl ⟨rfl, hc⟩
    · rw [if_neg hc] at h
      push_neg at hc
      obtain ⟨hc1, hc2, hc3⟩ := hc
      rcases hm : s2.manufacturer_id with _ | mid
      · exact absurd hm hc1
      rcases hmdt : s2.manufacturer_device_type with _ | mdt
      · exact absurd hmdt hc2
      rcases hmdi : s2.device_id with _ | did
      · exact absurd hmdi hc3
      simp only [Except.ok.injEq, Prod.mk.injEq] at h
      obtain ⟨hb, hs⟩ := h
      subst hb
      right
      refine ⟨rfl, mid, mdt, did, ?_, ?_, ?_, ?_⟩ <;> rw [← hs] <;>
        simp [hm, hmdt, hmdi]

/-- C3: `run_command_0` returns False iff at least one of manufacturer
id, device type or device id is still unset after draining the decoded
messages; with zero decoded responses from the initial state it returns
False with no partial identity stored; and when it returns True it has
stored the long address computed from the three identity fields. -/
theorem run_command_0_failure_iff
    (s : SessionState) (msgs : List Msg0) (b : Bool) (s1 : SessionState)
    (h : run_command_0 s msgs = .ok (b, s1)) :
    (b = false ↔ (s1.manufacturer_id = none ∨ s1.manufacturer_device_type = none ∨
      s1.device_id = none)) ∧
    (b = true → ∃ mid mdt did, s1.manufacturer_id = some mid ∧
      s1.manufacturer_device_type = some mdt ∧ s1.device_id = some did ∧
      s1.long_address = some (calculate_long_address mid mdt did)) ∧
    run_command_0 initSession [] = .ok (false, initSession) := by
  have key := run_command_0_ok_shape s msgs b s1 h
  refine ⟨?_, ?_, rfl⟩
  · rcases key with ⟨hb, hdisj⟩ | ⟨hb, mid, mdt, did, h1, h2, h3, _⟩
    · subst hb
      exact iff_of_true rfl hdisj
    · subst hb
      simp [h1, h2, h3]
  · intro hbt
    rcases key with ⟨hb, _⟩ | ⟨_, hex⟩
    · rw [hbt] at hb
      exact absurd hb (by simp)
    · exact hex

/-- Witness for C3: draining the single response (1, 2, 3) from the
initial state succeeds and stores the derived long address. -/
theorem run_command_0_failure_iff_witness :
    ∃ mid mdt did, sIdent.manufacturer_id = some mid ∧
      sIdent.manufacturer_device_type = some mdt ∧ sIdent.device_id = some did ∧
      sIdent.long_address = some (calculate_long_address mid mdt did) :=
  (run_command_0_failure_iff initSession [⟨1, 2, 3⟩] true sIdent rfl).2.1 rfl

end SimpleMaster
